import Mathlib

/-!
Shallow embedding of the Hybrid-Water-Sim core (ripple heightfield solver,
procedural wave compositor, impact scheduling, color ramp, underwater shading
branch) and proofs of the specification's claims about it.

Shader float arithmetic is modelled over an ordered field: over ℚ where every
operation is rational (compositor, color ramp, frame bookkeeping) and over ℝ
where the source uses sqrt/sin (distance-based forcing, vertex impacts,
refraction).  Texture sampling of the ripple render target uses NearestFilter
with ClampToEdgeWrapping, so the grid is modelled as a function on Fin n × Fin m
with clamped neighbour indexing.
-/

namespace WaterSim

/-- GLSL clamp(x, lo, hi) = min(max(x, lo), hi), over any linear-ordered field. -/
def glslClamp {K : Type} [LinearOrderedField K] (x lo hi : K) : K :=
  min (max x lo) hi

/-- GLSL smoothstep(e0, e1, x): t = clamp((x-e0)/(e1-e0), 0, 1); t*t*(3-2t). -/
def smoothstep {K : Type} [LinearOrderedField K] (e0 e1 x : K) : K :=
  let t := glslClamp ((x - e0) / (e1 - e0)) 0 1
  t * t * (3 - 2 * t)

/-- GLSL mix(a, b, t) = a + (b - a) * t (linear interpolation). -/
def glslMix {K : Type} [LinearOrderedField K] (a b t : K) : K :=
  a + (b - a) * t

/-! ## Procedural wave compositor (waterVertexShader, src/unnamed/part_000)

The noise primitives simplex_fbm / perlin_fbm / voronoi come from
commonShaderUtils in common.ts, which is not part of the sources under
verification; the compositor is parametrised over them as pure functions,
which is all the compositor claims depend on. -/

/-- Bundle of the three noise families supplied by commonShaderUtils. -/
structure NoiseFns where
  simplex_fbm : ℚ × ℚ → ℕ → ℚ → ℚ → ℚ
  perlin_fbm : ℚ × ℚ → ℕ → ℚ → ℚ → ℚ
  voronoi : ℚ × ℚ → ℚ → ℚ

/-- Uniforms of the procedural wave part of waterVertexShader. -/
structure WaveUniforms where
  uTime : ℚ
  uWaveHeight : ℚ
  uWaveSpeed : ℚ
  uWaveScale : ℚ
  uNoiseType : ℤ
  uUseNoiseLayerB : Bool
  uNoiseBlendingModeAB : ℤ
  uNoiseBlendAB : ℚ
  uWaveHeightB : ℚ
  uWaveSpeedB : ℚ
  uWaveScaleB : ℚ
  uNoiseTypeB : ℤ
  uUseNoiseLayerC : Bool
  uNoiseBlendingModeBC : ℤ
  uNoiseBlendBC : ℚ
  uWaveHeightC : ℚ
  uWaveSpeedC : ℚ
  uWaveScaleC : ℚ
  uNoiseTypeC : ℤ

/-- getProceduralNoiseHeight from waterVertexShader: offsets the sample point by
time*speed drift, then dispatches on the noise family and scales by height. -/
def getProceduralNoiseHeight (nf : NoiseFns) (uTime : ℚ) (noiseType : ℤ)
    (p : ℚ × ℚ) (speed height : ℚ) : ℚ :=
  let pos : ℚ × ℚ := (p.1 + uTime * speed * (1/2), p.2 + uTime * speed * (1/2) * (2/5))
  if noiseType = 0 then
    nf.simplex_fbm pos 3 (1/2) 2 * height
  else if noiseType = 1 then
    nf.perlin_fbm pos 3 (1/2) 2 * height
  else if noiseType = 2 then
    (nf.voronoi ((1/2) * pos.1, (1/2) * pos.2) (uTime * speed) * 2 - 1) * height
  else 0

/-- blend_heights from waterVertexShader: mode 0 adds, mode 1 remap-multiplies,
mode 2 mixes, anything else falls back to h1. -/
def blend_heights (h1 h2 : ℚ) (mode : ℤ) (mix_amount : ℚ) : ℚ :=
  if mode = 0 then h1 + h2
  else if mode = 1 then (h1 * (1/2) + 1/2) * (h2 * (1/2) + 1/2) * 2 - 1
  else if mode = 2 then glslMix h1 h2 mix_amount
  else h1

/-- getBlendedWaveHeight from waterVertexShader: layer A, optionally blended
with layer B, the result optionally blended with layer C. -/
def getBlendedWaveHeight (nf : NoiseFns) (u : WaveUniforms) (p : ℚ × ℚ) : ℚ :=
  let heightA := getProceduralNoiseHeight nf u.uTime u.uNoiseType
    (p.1 * u.uWaveScale * (1/50), p.2 * u.uWaveScale * (1/50)) u.uWaveSpeed (u.uWaveHeight * 10)
  if !u.uUseNoiseLayerB then heightA
  else
    let heightB := getProceduralNoiseHeight nf u.uTime u.uNoiseTypeB
      (p.1 * u.uWaveScaleB * (1/50), p.2 * u.uWaveScaleB * (1/50)) u.uWaveSpeedB (u.uWaveHeightB * 10)
    let heightAB := blend_heights heightA heightB u.uNoiseBlendingModeAB u.uNoiseBlendAB
    if !u.uUseNoiseLayerC then heightAB
    else
      let heightC := getProceduralNoiseHeight nf u.uTime u.uNoiseTypeC
        (p.1 * u.uWaveScaleC * (1/50), p.2 * u.uWaveScaleC * (1/50)) u.uWaveSpeedC (u.uWaveHeightC * 10)
      blend_heights heightAB heightC u.uNoiseBlendingModeBC u.uNoiseBlendBC

/-- Raw (unscaled) noise sample backing layer A, following the specification's
reading of getProceduralNoiseHeight: the dispatched noise value before the
final multiplication by the height amplitude. -/
def layerANoiseSample (nf : NoiseFns) (u : WaveUniforms) (p : ℚ × ℚ) : ℚ :=
  let q : ℚ × ℚ := (p.1 * u.uWaveScale * (1/50), p.2 * u.uWaveScale * (1/50))
  let pos : ℚ × ℚ := (q.1 + u.uTime * u.uWaveSpeed * (1/2), q.2 + u.uTime * u.uWaveSpeed * (1/2) * (2/5))
  if u.uNoiseType = 0 then nf.simplex_fbm pos 3 (1/2) 2
  else if u.uNoiseType = 1 then nf.perlin_fbm pos 3 (1/2) 2
  else if u.uNoiseType = 2 then nf.voronoi ((1/2) * pos.1, (1/2) * pos.2) (u.uTime * u.uWaveSpeed) * 2 - 1
  else 0

/-- Spec-side multiply blend: remap both operands from [-1,1] to [0,1],
multiply, remap the product back to [-1,1]. -/
def blendMultiplySpec (h1 h2 : ℚ) : ℚ :=
  2 * (((h1 + 1) / 2) * ((h2 + 1) / 2)) - 1

/-! ## Ripple heightfield solver (rippleFragmentShader)

Two variants exist in the repository: src/unnamed/part_001 adds a velocity
Laplacian scaled by uViscosity; src/unnamed/part_002 is the legacy variant
whose acceleration is (average of 4 neighbours - height) * 2.0.  The render
targets use ClampToEdgeWrapping and NearestFilter, so a texel fetch at
vUv ± cellSize reads the neighbouring cell with the index clamped to the grid. -/

/-- GLSL distance between two 2D points. -/
noncomputable def dist2d (a b : ℝ × ℝ) : ℝ :=
  Real.sqrt ((a.1 - b.1) ^ 2 + (a.2 - b.2) ^ 2)

/-- Index of the texel read at offset d from cell i under ClampToEdgeWrapping. -/
def clampIdx {n : ℕ} (i : Fin n) (d : ℤ) : Fin n :=
  ⟨(min ((n : ℤ) - 1) (max 0 ((i : ℤ) + d))).toNat, by
    have hi := i.isLt
    omega⟩

/-- Center UV coordinate of texel (i, j) in an n × m render target. -/
noncomputable def cellUV {n m : ℕ} (i : Fin n) (j : Fin m) : ℝ × ℝ :=
  (((i : ℝ) + 1/2) / n, ((j : ℝ) + 1/2) / m)

/-- Ripple simulation state: each texel's RG channels are (height, velocity). -/
def RippleGrid (n m : ℕ) : Type := Fin n → Fin m → ℝ × ℝ

/-- Uniforms of the viscosity-enabled rippleFragmentShader (src/unnamed/part_001). -/
structure RippleUniforms where
  uMouse : ℝ × ℝ
  uStrength : ℝ
  uRadius : ℝ
  uDamping : ℝ
  uViscosity : ℝ
  uMouseDown : Bool
  uImpacts : List (ℝ × ℝ × ℝ)
  uImpactCount : ℕ

/-- Uniforms of the legacy rippleFragmentShader (src/unnamed/part_002), which
has no uViscosity uniform. -/
structure RippleUniformsLegacy where
  uMouse : ℝ × ℝ
  uStrength : ℝ
  uRadius : ℝ
  uDamping : ℝ
  uMouseDown : Bool
  uImpacts : List (ℝ × ℝ × ℝ)
  uImpactCount : ℕ

/-- Legacy uniforms viewed as viscous-shader uniforms with a chosen uViscosity. -/
def RippleUniformsLegacy.withViscosity (u : RippleUniformsLegacy) (v : ℝ) : RippleUniforms :=
  ⟨u.uMouse, u.uStrength, u.uRadius, u.uDamping, v, u.uMouseDown, u.uImpacts, u.uImpactCount⟩

/-- MAX_IMPACTS in both ripple shaders and the animation loop. -/
def MAX_IMPACTS : ℕ := 10

/-- Brush term of both ripple shaders: inside uRadius of uMouse, push the
height down by uStrength * (1 - smoothstep(0, uRadius, dist)). -/
noncomputable def brushTerm (uMouse : ℝ × ℝ) (uStrength uRadius : ℝ)
    (uMouseDown : Bool) (uv : ℝ × ℝ) : ℝ :=
  if uMouseDown then
    let d := dist2d uv uMouse
    if d < uRadius then -(uStrength * (1 - smoothstep 0 uRadius d)) else 0
  else 0

/-- Per-impact term of the ripple shaders' impact loop: the entry's strength
attenuated by the smooth falloff, negative (pushing the water down), and zero
outside uRadius. -/
noncomputable def impactTerm (uRadius : ℝ) (uv : ℝ × ℝ) (imp : ℝ × ℝ × ℝ) : ℝ :=
  let d := dist2d uv (imp.1, imp.2.1)
  if d < uRadius then -(imp.2.2 * (1 - smoothstep 0 uRadius d)) else 0

/-- Impact loop of both ripple shaders: iterate i < MAX_IMPACTS, break at
uImpactCount, and accumulate -strength * (1 - smoothstep(0, uRadius, dist))
for impacts within uRadius. -/
noncomputable def impactForce (uImpacts : List (ℝ × ℝ × ℝ)) (uImpactCount : ℕ)
    (uRadius : ℝ) (uv : ℝ × ℝ) : ℝ :=
  if 0 < uImpactCount then
    ((uImpacts.take (min uImpactCount MAX_IMPACTS)).map (impactTerm uRadius uv)).sum
  else 0

/-- One texel of one step of the viscosity-enabled ripple solver
(src/unnamed/part_001).  Note the source computes the velocity Laplacian
against the already spring-accelerated centre velocity but the neighbours'
old velocities. -/
noncomputable def rippleStepViscous {n m : ℕ} (u : RippleUniforms)
    (g : RippleGrid n m) (i : Fin n) (j : Fin m) : ℝ × ℝ :=
  let height := (g i j).1
  let vel := (g i j).2
  let nb_n := g i (clampIdx j (-1))
  let nb_s := g i (clampIdx j 1)
  let nb_e := g (clampIdx i 1) j
  let nb_w := g (clampIdx i (-1)) j
  let laplacian := (nb_n.1 + nb_s.1 + nb_e.1 + nb_w.1) - 4 * height
  let vel1 := vel + laplacian * (1/2)
  let vel_laplacian := (nb_n.2 + nb_s.2 + nb_e.2 + nb_w.2) - 4 * vel1
  let vel2 := vel1 + vel_laplacian * u.uViscosity
  let vel3 := vel2 * u.uDamping
  let height1 := height + vel3
  let height2 := height1 + brushTerm u.uMouse u.uStrength u.uRadius u.uMouseDown (cellUV i j)
  let height3 := height2 + impactForce u.uImpacts u.uImpactCount u.uRadius (cellUV i j)
  (height3, vel3)

/-- One texel of one step of the legacy ripple solver (src/unnamed/part_002):
velocity accelerates by (average of 4 neighbours - height) * 2.0. -/
noncomputable def rippleStepLegacy {n m : ℕ} (u : RippleUniformsLegacy)
    (g : RippleGrid n m) (i : Fin n) (j : Fin m) : ℝ × ℝ :=
  let height := (g i j).1
  let vel := (g i j).2
  let avg := ((g (clampIdx i (-1)) j).1 + (g (clampIdx i 1) j).1 +
              (g i (clampIdx j (-1))).1 + (g i (clampIdx j 1)).1) * (1/4)
  let vel1 := (vel + (avg - height) * 2) * u.uDamping
  let height1 := height + vel1
  let height2 := height1 + brushTerm u.uMouse u.uStrength u.uRadius u.uMouseDown (cellUV i j)
  let height3 := height2 + impactForce u.uImpacts u.uImpactCount u.uRadius (cellUV i j)
  (height3, vel1)

/-- One full-grid step of the viscous solver (written to the other ping-pong buffer). -/
noncomputable def rippleGridStepViscous {n m : ℕ} (u : RippleUniforms)
    (g : RippleGrid n m) : RippleGrid n m :=
  fun i j => rippleStepViscous u g i j

/-- One full-grid step of the legacy solver. -/
noncomputable def rippleGridStepLegacy {n m : ℕ} (u : RippleUniformsLegacy)
    (g : RippleGrid n m) : RippleGrid n m :=
  fun i j => rippleStepLegacy u g i j

/-- Total energy of the heightfield as the specification defines it:
sum over all cells of height² + velocity². -/
noncomputable def gridEnergy {n m : ℕ} (g : RippleGrid n m) : ℝ :=
  ∑ i : Fin n, ∑ j : Fin m, ((g i j).1 ^ 2 + (g i j).2 ^ 2)

/-- Velocity part of the heightfield energy: sum over all cells of velocity². -/
noncomputable def gridVelEnergy {n m : ℕ} (g : RippleGrid n m) : ℝ :=
  ∑ i : Fin n, ∑ j : Fin m, (g i j).2 ^ 2

/-! ## Vertex-shader impact displacement (waterVertexShader, src/unnamed/part_000) -/

/-- Contribution of one uVertexImpacts entry (x, z, strength, startTime) to
vertex_ripple_displacement at world position wp and shader time uTime. -/
noncomputable def vertexImpactContribution (uTime : ℝ) (imp : ℝ × ℝ × ℝ × ℝ)
    (wp : ℝ × ℝ) : ℝ :=
  let age := uTime - imp.2.2.2
  if 0 < age ∧ age < 5 then
    let d := dist2d wp (imp.1, imp.2.1)
    let wave := Real.sin (d * (1/5) - age * 30)
    let pulse_envelope := smoothstep 0 15 (d - age * 30) * (1 - smoothstep 15 16 (d - age * 30))
    let falloff_time := 1 - smoothstep 2 4 age
    wave * pulse_envelope * imp.2.2.1 * falloff_time * 5
  else 0

/-- The vertex shader's impact loop: guarded by uUseVertexImpacts and a
positive count, iterating i < MAX_IMPACTS and breaking at uVertexImpactCount. -/
noncomputable def vertexRippleDisplacement (uUseVertexImpacts : Bool)
    (uVertexImpactCount : ℕ) (uVertexImpacts : List (ℝ × ℝ × ℝ × ℝ))
    (uTime : ℝ) (wp : ℝ × ℝ) : ℝ :=
  if uUseVertexImpacts ∧ 0 < uVertexImpactCount then
    ((uVertexImpacts.take (min uVertexImpactCount MAX_IMPACTS)).map
      (fun imp => vertexImpactContribution uTime imp wp)).sum
  else 0

/-! ## Per-frame impact and brush bookkeeping (MetaPrototype animate loop)

The animation loop prunes the discrete impact list by age, uploads at most
MAX_IMPACTS texture impacts from a one-shot queue (cleared after upload),
runs one ripple step with the current uMouseDown flag and then resets the
flag, and uploads at most MAX_IMPACTS live impacts for vertex displacement. -/

/-- Impact record pushed by pointer-down: world position, strength, spawn time. -/
structure Impact where
  x : ℚ
  z : ℚ
  strength : ℚ
  startTime : ℚ
deriving DecidableEq

/-- Configuration toggles consulted by the animation loop. -/
structure AnimConfig where
  useTextureImpacts : Bool
  useVertexImpacts : Bool
  mouseHoverEnabled : Bool

/-- Mutable state threaded through the animation loop and event handlers. -/
structure FrameState where
  discreteImpacts : List Impact
  textureQueue : List Impact
  mouseDown : Bool
deriving DecidableEq

/-- Per-frame outputs: the impacts uploaded as grid forcing, the uploaded
grid count, whether the brush was applied by this frame's ripple step, and
the impacts uploaded for vertex displacement with their count. -/
structure FrameOut where
  gridImpacts : List Impact
  gridCount : ℕ
  brush : Bool
  vertexImpacts : List Impact
  vertexCount : ℕ
deriving DecidableEq

/-- Vec4 uploaded to uVertexImpacts: (x, z, strength, startTime). -/
noncomputable def Impact.toV4 (i : Impact) : ℝ × ℝ × ℝ × ℝ :=
  ((i.x : ℝ), (i.z : ℝ), (i.strength : ℝ), (i.startTime : ℝ))

/-- Shader-side (real-valued) view of a uImpacts upload entry. -/
noncomputable def Impact.toGridUVR (i : Impact) : ℝ × ℝ × ℝ :=
  ((((i.x + 2000) / 4000 : ℚ) : ℝ), (((-i.z + 2000) / 4000 : ℚ) : ℝ), ((i.strength : ℚ) : ℝ))

/-- Padding of the sliced uImpacts upload with zero vectors up to MAX_IMPACTS,
as seen by the ripple shader. -/
noncomputable def gridUploadR (l : List Impact) : List (ℝ × ℝ × ℝ) :=
  l.map Impact.toGridUVR ++ List.replicate (MAX_IMPACTS - l.length) (0, 0, 0)

/-- Padding of the sliced uVertexImpacts upload with zero vectors up to MAX_IMPACTS. -/
noncomputable def vertexUploadOf (l : List Impact) : List (ℝ × ℝ × ℝ × ℝ) :=
  l.map Impact.toV4 ++ List.replicate (MAX_IMPACTS - l.length) (0, 0, 0, 0)

/-- One pass of the animate loop at clock time t: prune impacts older than
5.0 s, consume-and-clear the texture impact queue (capped at MAX_IMPACTS),
run the ripple step with the current brush flag and reset it, and upload the
first MAX_IMPACTS live impacts for vertex displacement. -/
def frame (cfg : AnimConfig) (t : ℚ) (s : FrameState) : FrameState × FrameOut :=
  let discrete := s.discreteImpacts.filter (fun i => t - i.startTime < 5)
  let doGrid : Bool := cfg.useTextureImpacts && !s.textureQueue.isEmpty
  let gridImpacts := if doGrid then s.textureQueue.take MAX_IMPACTS else []
  let gridCount := if doGrid then gridImpacts.length else 0
  let queue1 := if doGrid then [] else s.textureQueue
  let brush := s.mouseDown
  let vertexImpacts := if cfg.useVertexImpacts then discrete.take MAX_IMPACTS else []
  let vertexCount := if cfg.useVertexImpacts then vertexImpacts.length else 0
  (⟨discrete, queue1, false⟩, ⟨gridImpacts, gridCount, brush, vertexImpacts, vertexCount⟩)

/-- Asynchronous events interleaved with frames: pointer-move (with whether
the ray hit the water plane), pointer-down spawning an impact into both
queues, pointer-leave (moves uMouse offscreen, leaving the flag alone), and
a frame of the animation loop. -/
inductive AnimEvent
  | move (hit : Bool)
  | down (imp : Impact)
  | leave
  | frameAt (t : ℚ)

/-- Effect of one event on the loop state; frames also emit their outputs. -/
def stepEvent (cfg : AnimConfig) (s : FrameState) : AnimEvent → FrameState × Option FrameOut
  | .move hit =>
      (⟨s.discreteImpacts, s.textureQueue, s.mouseDown || (cfg.mouseHoverEnabled && hit)⟩, none)
  | .down imp =>
      (⟨s.discreteImpacts ++ [imp], s.textureQueue ++ [imp], s.mouseDown⟩, none)
  | .leave => (s, none)
  | .frameAt t => let p := frame cfg t s; (p.1, some p.2)

/-- Run a trace of events, collecting the frame outputs in order. -/
def runTrace (cfg : AnimConfig) (s : FrameState) : List AnimEvent → FrameState × List FrameOut
  | [] => (s, [])
  | e :: es =>
      let p := stepEvent cfg s e
      let q := runTrace cfg p.1 es
      (q.1, p.2.toList ++ q.2)

/-- Number of frames of a trace in which the ripple step applied the brush. -/
def brushFrames (outs : List FrameOut) : ℕ :=
  (outs.filter (fun o => o.brush)).length

/-- Number of events of a trace that set the brush flag: pointer-moves that
hit the plane while mouse hover is enabled. -/
def moveHits (cfg : AnimConfig) : List AnimEvent → ℕ
  | [] => 0
  | .move hit :: es => (if cfg.mouseHoverEnabled && hit then 1 else 0) + moveHits cfg es
  | _ :: es => moveHits cfg es

/-! ## Color ramp lookup (waterFragmentShader, getColorFromRamp) -/

/-- Componentwise GLSL mix on an RGB triple over ℚ. -/
def mix3q (a b : ℚ × ℚ × ℚ) (t : ℚ) : ℚ × ℚ × ℚ :=
  (glslMix a.1 b.1 t, glslMix a.2.1 b.2.1 t, glslMix a.2.2 b.2.2 t)

/-- Color ramp uniforms: two parallel arrays of 5 entries (modelled as
functions read at indices 0..4) and the active stop count. -/
structure RampUniforms where
  uColorRamp : ℕ → ℚ × ℚ × ℚ
  uColorRampPositions : ℕ → ℚ
  uColorRampStopCount : ℕ

/-- Loop body of getColorFromRamp over the remaining indices: break (none)
once i+1 reaches the active stop count, return the interpolation of the
first bracketing pair, otherwise continue. -/
def rampLoop (u : RampUniforms) (t : ℚ) : List ℕ → Option (ℚ × ℚ × ℚ)
  | [] => none
  | i :: rest =>
      if u.uColorRampStopCount ≤ i + 1 then none
      else
        let pos1 := u.uColorRampPositions i
        let pos2 := u.uColorRampPositions (i + 1)
        if pos1 < t ∧ t ≤ pos2 then
          some (mix3q (u.uColorRamp i) (u.uColorRamp (i + 1)) ((t - pos1) / (pos2 - pos1)))
        else rampLoop u t rest

/-- getColorFromRamp from waterFragmentShader: clamp below the first stop,
scan the (up to four) consecutive stop pairs, and fall back to the last
active stop's color. -/
def getColorFromRamp (u : RampUniforms) (t : ℚ) : ℚ × ℚ × ℚ :=
  if t ≤ u.uColorRampPositions 0 then u.uColorRamp 0
  else (rampLoop u t [0, 1, 2, 3]).getD (u.uColorRamp (u.uColorRampStopCount - 1))

/-! ## Underwater shading branch (waterFragmentShader, back-facing case) -/

/-- RGB / 3D vector over ℝ. -/
def V3 : Type := ℝ × ℝ × ℝ

/-- Dot product of two 3D vectors. -/
noncomputable def dot3 (a b : V3) : ℝ :=
  a.1 * b.1 + a.2.1 * b.2.1 + a.2.2 * b.2.2

/-- Scalar multiple of a 3D vector. -/
noncomputable def smul3 (c : ℝ) (a : V3) : V3 :=
  (c * a.1, c * a.2.1, c * a.2.2)

/-- Difference of two 3D vectors. -/
noncomputable def sub3 (a b : V3) : V3 :=
  (a.1 - b.1, a.2.1 - b.2.1, a.2.2 - b.2.2)

/-- Negation of a 3D vector. -/
noncomputable def neg3 (a : V3) : V3 :=
  (-a.1, -a.2.1, -a.2.2)

/-- GLSL length of a 3D vector. -/
noncomputable def length3 (a : V3) : ℝ :=
  Real.sqrt (dot3 a a)

/-- Componentwise GLSL mix on an RGB triple over ℝ. -/
noncomputable def mix3r (a b : V3) (t : ℝ) : V3 :=
  (a.1 + (b.1 - a.1) * t, a.2.1 + (b.2.1 - a.2.1) * t, a.2.2 + (b.2.2 - a.2.2) * t)

/-- GLSL reflect(I, N) = I - 2 dot(N, I) N. -/
noncomputable def reflectG (I N : V3) : V3 :=
  sub3 I (smul3 (2 * dot3 N I) N)

/-- GLSL refract(I, N, eta): k = 1 - eta² (1 - dot(N,I)²); the zero vector on
total internal reflection, else eta I - (eta dot(N,I) + sqrt k) N. -/
noncomputable def refractG (I N : V3) (eta : ℝ) : V3 :=
  let d := dot3 N I
  let k := 1 - eta ^ 2 * (1 - d ^ 2)
  if k < 0 then (0, 0, 0)
  else sub3 (smul3 eta I) (smul3 (eta * d + Real.sqrt k) N)

/-- Uniforms read by the underwater branch. -/
structure UnderwaterUniforms where
  uIOR : ℝ
  uColorDeep : V3
  uColorShallow : V3
  uTime : ℝ

/-- Discriminant k = 1 - eta² (1 - cosθ²) with eta = 1/uIOR and
cosθ = max(0, dot(I, N)), as computed at the end of the underwater branch. -/
noncomputable def underwaterK (u : UnderwaterUniforms) (I N : V3) : ℝ :=
  1 - (1 / u.uIOR) ^ 2 * (1 - (max 0 (dot3 I N)) ^ 2)

/-- Schlick Fresnel reflectance of the underwater branch:
R0 + (1 - R0)(1 - cosθ)⁵ with R0 = ((1 - IOR)/(1 + IOR))². -/
noncomputable def underwaterFresnel (u : UnderwaterUniforms) (I N : V3) : ℝ :=
  let R0 := ((1 - u.uIOR) / (1 + u.uIOR)) ^ 2
  R0 + (1 - R0) * (1 - max 0 (dot3 I N)) ^ 5

/-- Environment-refraction color of the underwater branch: the sky sample
along the refracted ray, or black when refract returned the zero vector. -/
noncomputable def underwaterRefractedColor (sky : V3 → V3) (u : UnderwaterUniforms)
    (I N : V3) : V3 :=
  let refractedDir := refractG I N (1 / u.uIOR)
  if 0 < length3 refractedDir then sky refractedDir else (0, 0, 0)

/-- Procedurally noised deep/shallow reflected color of the underwater branch. -/
noncomputable def underwaterReflectedColor (fbm : ℝ × ℝ → ℕ → ℝ → ℝ → ℝ)
    (u : UnderwaterUniforms) (worldPos : ℝ × ℝ) (I N : V3) : V3 :=
  let reflectedDir := reflectG (neg3 I) N
  let noise := fbm (worldPos.1 * (1/20) + reflectedDir.1 * (1/10) + u.uTime * (1/10),
                    worldPos.2 * (1/20) + reflectedDir.2.2 * (1/10) + u.uTime * (1/10)) 3 (1/2) 2
  mix3r u.uColorDeep u.uColorShallow (3/10 + noise * (3/10))

/-- The underwater (gl_FrontFacing = false) branch of waterFragmentShader,
returning the RGB color and the alpha it writes.  The noise primitive
simplex_fbm lives in common.ts outside the verified sources and the sky
texture is external, so both are parameters. -/
noncomputable def underwaterBranch (fbm : ℝ × ℝ → ℕ → ℝ → ℝ → ℝ) (sky : V3 → V3)
    (u : UnderwaterUniforms) (worldPos : ℝ × ℝ) (I N : V3) : V3 × ℝ :=
  let fresnelFactor := underwaterFresnel u I N
  let refractedColor := underwaterRefractedColor sky u I N
  let reflectedColor := underwaterReflectedColor fbm u worldPos I N
  let k := underwaterK u I N
  let finalFresnel := if k < 0 then 1 else fresnelFactor
  (mix3r refractedColor reflectedColor finalFresnel, 1)

/-- Spatially uniform ripple grid with height h and velocity v in every cell. -/
noncomputable def constGrid (n m : ℕ) (h v : ℝ) : RippleGrid n m :=
  fun _ _ => (h, v)

/-! ## Theorems -/

/-- Helper: smoothstep saturates to 1 at or above the upper edge. -/
lemma smoothstep_eq_one {K : Type} [LinearOrderedField K] {e0 e1 x : K}
    (h01 : e0 < e1) (hx : e1 ≤ x) : smoothstep e0 e1 x = 1 := by
  have hpos : 0 < e1 - e0 := by linarith
  have hge : (1 : K) ≤ (x - e0) / (e1 - e0) := by
    rw [le_div_iff₀ hpos]; linarith
  have ht : glslClamp ((x - e0) / (e1 - e0)) 0 1 = 1 := by
    unfold glslClamp
    rw [max_eq_left (by linarith), min_eq_right hge]
  simp only [smoothstep, ht]
  ring

/-- Helper: smoothstep vanishes at or below the lower edge. -/
lemma smoothstep_eq_zero {K : Type} [LinearOrderedField K] {e0 e1 x : K}
    (h01 : e0 < e1) (hx : x ≤ e0) : smoothstep e0 e1 x = 0 := by
  have hpos : 0 < e1 - e0 := by linarith
  have hle : (x - e0) / (e1 - e0) ≤ 0 := by
    apply div_nonpos_of_nonpos_of_nonneg <;> linarith
  have ht : glslClamp ((x - e0) / (e1 - e0)) 0 1 = 0 := by
    unfold glslClamp
    rw [max_eq_right hle, min_eq_left (by norm_num)]
  simp only [smoothstep, ht]
  ring

/-- C1 counterexample: on the spatially uniform 2×2 state with height 1 and
velocity 1 in every cell, damping 9/10 ∈ (0,1), and zero forcing, one legacy
ripple step strictly increases the total energy Σ (height² + velocity²):
the Laplacian vanishes, so velocity becomes 9/10 and height 19/10, taking the
energy from 8 to 17.68. -/
theorem heightfield_energy_counterexample :
    (0 : ℝ) < 9/10 ∧ (9/10 : ℝ) < 1 ∧
    gridEnergy (constGrid 2 2 1 1) <
      gridEnergy (rippleGridStepLegacy ⟨(-10, -10), 1, 1/20, 9/10, false, [], 0⟩
        (constGrid 2 2 1 1)) := by
  refine ⟨by norm_num, by norm_num, ?_⟩
  simp only [gridEnergy, rippleGridStepLegacy, rippleStepLegacy, constGrid,
    brushTerm, impactForce, Fin.sum_univ_two]
  norm_num

/-- C1 amended: one zero-forcing step (of either ripple solver) on a
spatially uniform state scales every cell's velocity by exactly the damping
and integrates it into the height; hence the total velocity energy Σ velocity²
is scaled by damping² and is non-increasing for damping ∈ (0,1).  The full
energy Σ (height² + velocity²) is not non-increasing in general (see the
counterexample). -/
theorem uniform_state_velocity_energy_decays (n m : ℕ) (h v d vi str rad : ℝ)
    (mpos : ℝ × ℝ) (imps : List (ℝ × ℝ × ℝ)) (hd0 : 0 < d) (hd1 : d < 1) :
    (∀ (i : Fin n) (j : Fin m),
      rippleGridStepLegacy ⟨mpos, str, rad, d, false, imps, 0⟩ (constGrid n m h v) i j
        = (h + d * v, d * v)) ∧
    (∀ (i : Fin n) (j : Fin m),
      rippleGridStepViscous ⟨mpos, str, rad, d, vi, false, imps, 0⟩ (constGrid n m h v) i j
        = (h + d * v, d * v)) ∧
    gridVelEnergy (rippleGridStepLegacy ⟨mpos, str, rad, d, false, imps, 0⟩ (constGrid n m h v))
      = d ^ 2 * gridVelEnergy (constGrid n m h v) ∧
    gridVelEnergy (rippleGridStepLegacy ⟨mpos, str, rad, d, false, imps, 0⟩ (constGrid n m h v))
      ≤ gridVelEnergy (constGrid n m h v) := by
  have hcellL : ∀ (i : Fin n) (j : Fin m),
      rippleGridStepLegacy ⟨mpos, str, rad, d, false, imps, 0⟩ (constGrid n m h v) i j
        = (h + d * v, d * v) := by
    intro i j
    refine Prod.ext ?_ ?_ <;>
      simp only [rippleGridStepLegacy, rippleStepLegacy, constGrid, brushTerm, impactForce] <;>
      norm_num <;> ring
  have hcellV : ∀ (i : Fin n) (j : Fin m),
      rippleGridStepViscous ⟨mpos, str, rad, d, vi, false, imps, 0⟩ (constGrid n m h v) i j
        = (h + d * v, d * v) := by
    intro i j
    refine Prod.ext ?_ ?_ <;>
      simp only [rippleGridStepViscous, rippleStepViscous, constGrid, brushTerm, impactForce] <;>
      norm_num <;> ring
  have hstep : gridVelEnergy (rippleGridStepLegacy ⟨mpos, str, rad, d, false, imps, 0⟩
      (constGrid n m h v)) = (n * m : ℝ) * (d * v) ^ 2 := by
    unfold gridVelEnergy
    rw [Finset.sum_congr rfl (fun i _ => Finset.sum_congr rfl (fun j _ => by rw [hcellL i j]))]
    simp [Finset.sum_const, mul_assoc]
  have hconst : gridVelEnergy (constGrid n m h v) = (n * m : ℝ) * v ^ 2 := by
    unfold gridVelEnergy
    simp [constGrid, Finset.sum_const, mul_assoc]
  have hnm : (0 : ℝ) ≤ (n * m : ℝ) := by positivity
  refine ⟨hcellL, hcellV, ?_, ?_⟩
  · rw [hstep, hconst]; ring
  · rw [hstep, hconst]
    have hsq : (d * v) ^ 2 ≤ v ^ 2 := by
      nlinarith [mul_nonneg
        (mul_pos (by linarith : (0:ℝ) < 1 - d) (by linarith : (0:ℝ) < 1 + d)).le
        (sq_nonneg v)]
    exact mul_le_mul_of_nonneg_left hsq hnm

/-- Witness for the amended C1 on a 1×1 grid with h = v = 1 and damping 1/2. -/
theorem uniform_state_velocity_energy_decays_witness :
    (0 : ℝ) < 1/2 ∧ (1/2 : ℝ) < 1 ∧
    ((∀ (i : Fin 1) (j : Fin 1),
      rippleGridStepLegacy ⟨(0, 0), 0, 0, 1/2, false, [], 0⟩ (constGrid 1 1 1 1) i j
        = (1 + (1/2) * 1, (1/2) * 1)) ∧
    (∀ (i : Fin 1) (j : Fin 1),
      rippleGridStepViscous ⟨(0, 0), 0, 0, 1/2, 0, false, [], 0⟩ (constGrid 1 1 1 1) i j
        = (1 + (1/2) * 1, (1/2) * 1)) ∧
    gridVelEnergy (rippleGridStepLegacy ⟨(0, 0), 0, 0, 1/2, false, [], 0⟩ (constGrid 1 1 1 1))
      = (1/2) ^ 2 * gridVelEnergy (constGrid 1 1 1 1) ∧
    gridVelEnergy (rippleGridStepLegacy ⟨(0, 0), 0, 0, 1/2, false, [], 0⟩ (constGrid 1 1 1 1))
      ≤ gridVelEnergy (constGrid 1 1 1 1)) :=
  ⟨by norm_num, by norm_num,
    uniform_state_velocity_energy_decays 1 1 1 1 (1/2) 0 0 0 (0, 0) []
      (by norm_num) (by norm_num)⟩

/-- C3 counterexample: an impact of strength 1 spawned at time 0 contributes
exactly zero vertex displacement at age 5 - 1/8 (ε = 1/8, small and positive),
at every position (shown here at world position (3, 4)): the age falloff
1 - smoothstep(2, 4, age) is already zero for every age ≥ 4. -/
theorem impact_age_just_below_five_counterexample :
    (0 : ℝ) < 1/8 ∧
    vertexImpactContribution (5 - 1/8) ((0 : ℝ), (0 : ℝ), (1 : ℝ), (0 : ℝ)) (3, 4) = 0 := by
  refine ⟨by norm_num, ?_⟩
  simp only [vertexImpactContribution]
  rw [if_pos (by norm_num : (0:ℝ) < 5 - 1/8 - 0 ∧ (5:ℝ) - 1/8 - 0 < 5)]
  rw [smoothstep_eq_one (by norm_num : (2:ℝ) < 4) (by norm_num : (4:ℝ) ≤ 5 - 1/8 - 0)]
  ring

/-- C3 amended: the bookkeeping lifetime of an impact is exactly 5.0 simulated
seconds from startTime — the animation loop prunes the live list with
now - startTime < 5.0 and the shader gate requires age < 5.0, so at age
5.0 + ε the contribution is exactly zero — but the vertex displacement is
already exactly zero at every age ≥ 4.0 (the age falloff reaches zero at
age 4), so the effective forcing lifetime is 4.0 seconds; non-zero forcing
does occur at ages below 4 (witnessed at age 0.1, distance 16). -/
theorem impact_lifetime_amended (uTime : ℝ) (imp : ℝ × ℝ × ℝ × ℝ) (wp : ℝ × ℝ)
    (cfg : AnimConfig) (t : ℚ) (s : FrameState)
    (hage : 4 ≤ uTime - imp.2.2.2) :
    vertexImpactContribution uTime imp wp = 0 ∧
    (frame cfg t s).1.discreteImpacts
      = s.discreteImpacts.filter (fun i => t - i.startTime < 5) ∧
    0 < vertexImpactContribution (1/10) ((0 : ℝ), (0 : ℝ), (1 : ℝ), (0 : ℝ)) (16, 0) := by
  have h1 : vertexImpactContribution uTime imp wp = 0 := by
    by_cases hlt : uTime - imp.2.2.2 < 5
    · simp only [vertexImpactContribution]
      rw [if_pos ⟨by linarith, hlt⟩]
      rw [smoothstep_eq_one (by norm_num : (2:ℝ) < 4) (by linarith : (4:ℝ) ≤ uTime - imp.2.2.2)]
      ring
    · simp only [vertexImpactContribution]
      rw [if_neg (fun hc => hlt hc.2)]
  have hdist : dist2d ((16:ℝ), (0:ℝ)) (0, 0) = 16 := by
    simp only [dist2d]
    norm_num
    rw [show ((256:ℝ)) = 16 ^ 2 by norm_num]
    exact Real.sqrt_sq (by norm_num)
  have h3 : 0 < vertexImpactContribution (1/10) ((0 : ℝ), (0 : ℝ), (1 : ℝ), (0 : ℝ)) (16, 0) := by
    simp only [vertexImpactContribution]
    rw [if_pos (by norm_num : (0:ℝ) < 1/10 - 0 ∧ (1/10:ℝ) - 0 < 5)]
    rw [hdist]
    have e1 : (16:ℝ) * (1/5) - (1/10 - 0) * 30 = 1/5 := by norm_num
    have e2 : (16:ℝ) - (1/10 - 0) * 30 = 13 := by norm_num
    have e3 : (1:ℝ)/10 - 0 = 1/10 := by norm_num
    rw [e1, e2, e3]
    rw [smoothstep_eq_zero (by norm_num : (15:ℝ) < 16) (by norm_num : (13:ℝ) ≤ 15)]
    rw [smoothstep_eq_zero (by norm_num : (2:ℝ) < 4) (by norm_num : (1/10:ℝ) ≤ 2)]
    have hsin : 0 < Real.sin (1/5) :=
      Real.sin_pos_of_pos_of_lt_pi (by norm_num) (by linarith [Real.pi_gt_three])
    have hss : (0:ℝ) < smoothstep 0 15 13 := by
      simp only [smoothstep, glslClamp]
      rw [max_eq_left (by norm_num : (0:ℝ) ≤ (13 - 0) / (15 - 0)),
          min_eq_left (by norm_num : ((13:ℝ) - 0) / (15 - 0) ≤ 1)]
      norm_num
    nlinarith [mul_pos hsin hss]
  exact ⟨h1, by simp [frame], h3⟩

/-- Witness for the amended C3 at age 9/2 ∈ [4, 5). -/
theorem impact_lifetime_amended_witness :
    (4 : ℝ) ≤ 9/2 - 0 ∧
    (vertexImpactContribution (9/2) ((0 : ℝ), (0 : ℝ), (1 : ℝ), (0 : ℝ)) (0, 0) = 0 ∧
    (frame ⟨true, true, true⟩ 0 ⟨[], [], false⟩).1.discreteImpacts
      = List.filter (fun i => decide ((0:ℚ) - i.startTime < 5)) [] ∧
    0 < vertexImpactContribution (1/10) ((0 : ℝ), (0 : ℝ), (1 : ℝ), (0 : ℝ)) (16, 0)) :=
  ⟨by norm_num,
    impact_lifetime_amended (9/2) ((0 : ℝ), (0 : ℝ), (1 : ℝ), (0 : ℝ)) (0, 0)
      ⟨true, true, true⟩ 0 ⟨[], [], false⟩ (by norm_num)⟩

/-- C2 counterexample: with both impact toggles enabled, spawn one impact at
time 0 (it sits in both the discrete list and the texture queue) and run two
frames at times 0 and 1: in the second frame the impact is still uploaded
for vertex displacement but contributes no grid forcing, because the texture
queue was consumed and cleared by the first frame. -/
theorem impact_projections_counterexample :
    ((frame ⟨true, true, true⟩ 1
        (frame ⟨true, true, true⟩ 0 ⟨[⟨0, 0, 1, 0⟩], [⟨0, 0, 1, 0⟩], false⟩).1).2.gridImpacts
      = []) ∧
    ((frame ⟨true, true, true⟩ 1
        (frame ⟨true, true, true⟩ 0 ⟨[⟨0, 0, 1, 0⟩], [⟨0, 0, 1, 0⟩], false⟩).1).2.vertexImpacts
      = [⟨0, 0, 1, 0⟩]) ∧
    ((frame ⟨true, true, true⟩ 1
        (frame ⟨true, true, true⟩ 0 ⟨[⟨0, 0, 1, 0⟩], [⟨0, 0, 1, 0⟩], false⟩).1).2.gridImpacts
      ≠ (frame ⟨true, true, true⟩ 1
        (frame ⟨true, true, true⟩ 0 ⟨[⟨0, 0, 1, 0⟩], [⟨0, 0, 1, 0⟩], false⟩).1).2.vertexImpacts) := by
  have h0 : (frame ⟨true, true, true⟩ 0 ⟨[⟨0, 0, 1, 0⟩], [⟨0, 0, 1, 0⟩], false⟩).1
      = ⟨[⟨0, 0, 1, 0⟩], [], false⟩ := by
    simp [frame]
  rw [h0]
  have h1 : (frame ⟨true, true, true⟩ 1
      (⟨[⟨0, 0, 1, 0⟩], [], false⟩ : FrameState)).2
      = ⟨[], 0, false, [⟨0, 0, 1, 0⟩], 1⟩ := by
    simp [frame, MAX_IMPACTS]
  rw [h1]
  refine ⟨rfl, rfl, by simp⟩

/-- C2 amended: pointer-down pushes each impact into both consumers' queues,
and in the first frame after the spawn (both toggles enabled, single live
impact) the grid-forcing upload and the vertex-displacement upload contain
the same impact; but the texture queue is consumed exactly once while the
vertex projection re-reads the live list every frame, so in every later
frame within the 5-second lifetime the impact is vertex-displaced without
being grid-forced. -/
theorem impact_projections_amended (cfg : AnimConfig) (imp : Impact) (t1 t2 : ℚ)
    (hT : cfg.useTextureImpacts = true) (hV : cfg.useVertexImpacts = true)
    (h1 : t1 - imp.startTime < 5) (h2 : t2 - imp.startTime < 5) :
    ((frame cfg t1 ⟨[imp], [imp], false⟩).2.gridImpacts = [imp] ∧
     (frame cfg t1 ⟨[imp], [imp], false⟩).2.vertexImpacts = [imp]) ∧
    ((frame cfg t2 (frame cfg t1 ⟨[imp], [imp], false⟩).1).2.gridImpacts = [] ∧
     (frame cfg t2 (frame cfg t1 ⟨[imp], [imp], false⟩).1).2.vertexImpacts = [imp]) := by
  simp [frame, hT, hV, h1, h2, MAX_IMPACTS]

/-- Witness for the amended C2: impact spawned at time 0, frames at 0 and 1. -/
theorem impact_projections_amended_witness :
    (AnimConfig.mk true true true).useTextureImpacts = true ∧
    (AnimConfig.mk true true true).useVertexImpacts = true ∧
    (0 : ℚ) - (Impact.mk 0 0 1 0).startTime < 5 ∧
    (1 : ℚ) - (Impact.mk 0 0 1 0).startTime < 5 ∧
    (((frame ⟨true, true, true⟩ 0 ⟨[⟨0, 0, 1, 0⟩], [⟨0, 0, 1, 0⟩], false⟩).2.gridImpacts
        = [⟨0, 0, 1, 0⟩] ∧
      (frame ⟨true, true, true⟩ 0 ⟨[⟨0, 0, 1, 0⟩], [⟨0, 0, 1, 0⟩], false⟩).2.vertexImpacts
        = [⟨0, 0, 1, 0⟩]) ∧
     ((frame ⟨true, true, true⟩ 1
         (frame ⟨true, true, true⟩ 0 ⟨[⟨0, 0, 1, 0⟩], [⟨0, 0, 1, 0⟩], false⟩).1).2.gridImpacts
        = [] ∧
      (frame ⟨true, true, true⟩ 1
         (frame ⟨true, true, true⟩ 0 ⟨[⟨0, 0, 1, 0⟩], [⟨0, 0, 1, 0⟩], false⟩).1).2.vertexImpacts
        = [⟨0, 0, 1, 0⟩])) :=
  ⟨rfl, rfl, by norm_num, by norm_num,
    impact_projections_amended ⟨true, true, true⟩ ⟨0, 0, 1, 0⟩ 0 1 rfl rfl
      (by norm_num) (by norm_num)⟩

/-- Helper for C9: along any event trace, the number of frames that apply the
brush is bounded by the number of flag-setting pointer-moves plus one for an
initially set flag, because every frame consumes and clears the flag. -/
lemma brushFrames_le_moveHits (cfg : AnimConfig) :
    ∀ (tr : List AnimEvent) (s : FrameState),
      brushFrames (runTrace cfg s tr).2
        ≤ moveHits cfg tr + (if s.mouseDown then 1 else 0) := by
  intro tr
  induction tr with
  | nil => intro s; simp [runTrace, brushFrames]
  | cons e es ih =>
    intro s
    cases e with
    | move hit =>
      have h := ih ⟨s.discreteImpacts, s.textureQueue, s.mouseDown || (cfg.mouseHoverEnabled && hit)⟩
      simp only [runTrace, stepEvent, moveHits, Option.toList, List.nil_append] at h ⊢
      cases hs : s.mouseDown <;> cases hc : cfg.mouseHoverEnabled && hit <;>
        simp [hs, hc] at h ⊢ <;> omega
    | down imp =>
      have h := ih ⟨s.discreteImpacts ++ [imp], s.textureQueue ++ [imp], s.mouseDown⟩
      simp only [runTrace, stepEvent, moveHits, Option.toList, List.nil_append] at h ⊢
      exact h
    | leave =>
      have h := ih s
      simp only [runTrace, stepEvent, moveHits, Option.toList, List.nil_append] at h ⊢
      exact h
    | frameAt t =>
      have h := ih (frame cfg t s).1
      have hm : (frame cfg t s).1.mouseDown = false := rfl
      have hb : (frame cfg t s).2.brush = s.mouseDown := rfl
      simp only [runTrace, stepEvent, moveHits, Option.toList] at h ⊢
      simp only [hm, if_neg Bool.false_ne_true] at h
      simp only [brushFrames, List.filter, hb] at h ⊢
      cases hs : s.mouseDown <;> simp [hs] at h ⊢ <;> omega

/-- C9: the brush flag uMouseDown is reset to false by every frame right
after the simulation step, so starting from an unset flag, a trace with at
most one flag-setting pointer-move applies the brush injection in at most
one simulation step. -/
theorem brush_flag_reset_after_step (cfg : AnimConfig) (s : FrameState)
    (tr : List AnimEvent)
    (h0 : s.mouseDown = false) (h1 : moveHits cfg tr ≤ 1) :
    (∀ (s2 : FrameState) (t : ℚ), (frame cfg t s2).1.mouseDown = false) ∧
    brushFrames (runTrace cfg s tr).2 ≤ 1 := by
  refine ⟨fun s2 t => rfl, ?_⟩
  have h := brushFrames_le_moveHits cfg tr s
  rw [h0] at h
  simp only [if_neg Bool.false_ne_true] at h
  omega

/-- Witness for C9: one hitting pointer-move followed by two frames. -/
theorem brush_flag_reset_after_step_witness :
    (FrameState.mk [] [] false).mouseDown = false ∧
    moveHits ⟨true, true, true⟩
      [AnimEvent.move true, AnimEvent.frameAt 0, AnimEvent.frameAt 1] ≤ 1 ∧
    ((∀ (s2 : FrameState) (t : ℚ),
        (frame ⟨true, true, true⟩ t s2).1.mouseDown = false) ∧
      brushFrames (runTrace ⟨true, true, true⟩ ⟨[], [], false⟩
        [AnimEvent.move true, AnimEvent.frameAt 0, AnimEvent.frameAt 1]).2 ≤ 1) :=
  ⟨rfl, by simp [moveHits],
    brush_flag_reset_after_step ⟨true, true, true⟩ ⟨[], [], false⟩
      [AnimEvent.move true, AnimEvent.frameAt 0, AnimEvent.frameAt 1] rfl
      (by simp [moveHits])⟩

/-- Helper for C10: the vertex shader's impact loop over the padded upload of
a sliced list reads exactly the sliced entries (indices below the count), so
the padding contributes nothing. -/
lemma vertexLoop_reads_below_count (L : List Impact) (uTime : ℝ) (wp : ℝ × ℝ)
    (hL : L.length ≤ MAX_IMPACTS) :
    vertexRippleDisplacement true L.length (vertexUploadOf L) uTime wp
      = if 0 < L.length then
          (L.map (fun i => vertexImpactContribution uTime i.toV4 wp)).sum
        else 0 := by
  by_cases h0 : 0 < L.length
  · rw [if_pos h0]
    simp only [vertexRippleDisplacement, vertexUploadOf]
    rw [if_pos ⟨by trivial, h0⟩, min_eq_left hL]
    have hlen : (L.map Impact.toV4).length = L.length := List.length_map L Impact.toV4
    rw [← hlen, List.take_left, List.map_map]
    rfl
  · rw [if_neg h0]
    simp only [vertexRippleDisplacement]
    rw [if_neg (fun hc => h0 hc.2)]

/-- Helper for C10: the ripple shader's impact loop over the padded upload of
a sliced list reads exactly the sliced entries (indices below the count). -/
lemma impactForce_reads_below_count (L : List Impact) (rad : ℝ) (uv : ℝ × ℝ)
    (hL : L.length ≤ MAX_IMPACTS) :
    impactForce (gridUploadR L) L.length rad uv
      = if 0 < L.length then (L.map (fun i => impactTerm rad uv i.toGridUVR)).sum
        else 0 := by
  by_cases h0 : 0 < L.length
  · rw [if_pos h0]
    simp only [impactForce, gridUploadR]
    rw [if_pos h0, min_eq_left hL]
    have hlen : (L.map Impact.toGridUVR).length = L.length := List.length_map L Impact.toGridUVR
    rw [← hlen, List.take_left, List.map_map]
    rfl
  · rw [if_neg h0]
    simp only [impactForce]
    rw [if_neg h0]

/-- C10: in every frame at most MAX_IMPACTS = 10 impacts are uploaded to
either shader (each upload is the first 10 entries of its list), both shader
impact loops read only indices strictly below the uploaded count (so the
zero padding and any live impact beyond the first 10 contribute nothing that
frame), and the live impact list retains all unexpired impacts, including
those beyond the first 10. -/
theorem impact_upload_cap (cfg : AnimConfig) (s : FrameState) (t : ℚ)
    (uTime : ℝ) (wp : ℝ × ℝ) (rad : ℝ) (uv : ℝ × ℝ) :
    (frame cfg t s).2.gridCount ≤ MAX_IMPACTS ∧
    (frame cfg t s).2.vertexCount ≤ MAX_IMPACTS ∧
    (cfg.useVertexImpacts = true →
      (frame cfg t s).2.vertexImpacts
        = (s.discreteImpacts.filter (fun i => t - i.startTime < 5)).take MAX_IMPACTS ∧
      (frame cfg t s).2.vertexCount = (frame cfg t s).2.vertexImpacts.length) ∧
    (vertexRippleDisplacement true (frame cfg t s).2.vertexImpacts.length
        (vertexUploadOf (frame cfg t s).2.vertexImpacts) uTime wp
      = if 0 < (frame cfg t s).2.vertexImpacts.length then
          ((frame cfg t s).2.vertexImpacts.map
            (fun i => vertexImpactContribution uTime i.toV4 wp)).sum
        else 0) ∧
    (impactForce (gridUploadR (frame cfg t s).2.gridImpacts)
        (frame cfg t s).2.gridImpacts.length rad uv
      = if 0 < (frame cfg t s).2.gridImpacts.length then
          ((frame cfg t s).2.gridImpacts.map (fun i => impactTerm rad uv i.toGridUVR)).sum
        else 0) ∧
    (frame cfg t s).1.discreteImpacts
      = s.discreteImpacts.filter (fun i => t - i.startTime < 5) := by
  have hgi : (frame cfg t s).2.gridImpacts
      = if cfg.useTextureImpacts && !s.textureQueue.isEmpty
        then s.textureQueue.take MAX_IMPACTS else [] := rfl
  have hgc : (frame cfg t s).2.gridCount
      = if cfg.useTextureImpacts && !s.textureQueue.isEmpty
        then (frame cfg t s).2.gridImpacts.length else 0 := rfl
  have hvi : (frame cfg t s).2.vertexImpacts
      = if cfg.useVertexImpacts
        then (s.discreteImpacts.filter (fun i => t - i.startTime < 5)).take MAX_IMPACTS
        else [] := rfl
  have hvc : (frame cfg t s).2.vertexCount
      = if cfg.useVertexImpacts then (frame cfg t s).2.vertexImpacts.length else 0 := rfl
  have hgiLen : (frame cfg t s).2.gridImpacts.length ≤ MAX_IMPACTS := by
    rw [hgi]
    split
    · simp
    · simp
  have hviLen : (frame cfg t s).2.vertexImpacts.length ≤ MAX_IMPACTS := by
    rw [hvi]
    split
    · simp
    · simp
  refine ⟨?_, ?_, ?_, ?_, ?_, rfl⟩
  · rw [hgc]
    split
    · exact hgiLen
    · simp
  · rw [hvc]
    split
    · exact hviLen
    · simp
  · intro hV
    exact ⟨by rw [hvi, if_pos hV], by rw [hvc, if_pos hV]⟩
  · exact vertexLoop_reads_below_count _ uTime wp hviLen
  · exact impactForce_reads_below_count _ rad uv hgiLen

/-- Witness for C10 with eleven live impacts and both toggles enabled. -/
theorem impact_upload_cap_witness :
    (AnimConfig.mk true true true).useVertexImpacts = true ∧
    ((frame ⟨true, true, true⟩ 0
        ⟨List.replicate 11 ⟨0, 0, 1, 0⟩, List.replicate 11 ⟨0, 0, 1, 0⟩, false⟩).2.gridCount
      ≤ MAX_IMPACTS ∧
     (frame ⟨true, true, true⟩ 0
        ⟨List.replicate 11 ⟨0, 0, 1, 0⟩, List.replicate 11 ⟨0, 0, 1, 0⟩, false⟩).2.vertexCount
      ≤ MAX_IMPACTS ∧
     (frame ⟨true, true, true⟩ 0
        ⟨List.replicate 11 ⟨0, 0, 1, 0⟩, List.replicate 11 ⟨0, 0, 1, 0⟩, false⟩).2.vertexImpacts
      = ((List.replicate 11 (Impact.mk 0 0 1 0)).filter
          (fun i => (0 : ℚ) - i.startTime < 5)).take MAX_IMPACTS ∧
     (frame ⟨true, true, true⟩ 0
        ⟨List.replicate 11 ⟨0, 0, 1, 0⟩, List.replicate 11 ⟨0, 0, 1, 0⟩, false⟩).2.vertexCount
      = (frame ⟨true, true, true⟩ 0
        ⟨List.replicate 11 ⟨0, 0, 1, 0⟩, List.replicate 11 ⟨0, 0, 1, 0⟩, false⟩).2.vertexImpacts.length ∧
     (frame ⟨true, true, true⟩ 0
        ⟨List.replicate 11 ⟨0, 0, 1, 0⟩, List.replicate 11 ⟨0, 0, 1, 0⟩, false⟩).1.discreteImpacts
      = (List.replicate 11 (Impact.mk 0 0 1 0)).filter (fun i => (0 : ℚ) - i.startTime < 5)) := by
  have h := impact_upload_cap ⟨true, true, true⟩
    ⟨List.replicate 11 ⟨0, 0, 1, 0⟩, List.replicate 11 ⟨0, 0, 1, 0⟩, false⟩ 0 0 (0, 0) 0 (0, 0)
  exact ⟨rfl, h.1, h.2.1, (h.2.2.1 rfl).1, (h.2.2.1 rfl).2, h.2.2.2.2.2⟩

/-- Helper for C7: a loop index is skipped when it does not break and its
bracket test fails. -/
lemma rampLoop_skip (u : RampUniforms) (t : ℚ) (j : ℕ) (rest : List ℕ)
    (h1 : ¬ u.uColorRampStopCount ≤ j + 1)
    (h2 : ¬ (u.uColorRampPositions j < t ∧ t ≤ u.uColorRampPositions (j + 1))) :
    rampLoop u t (j :: rest) = rampLoop u t rest := by
  simp only [rampLoop]
  rw [if_neg h1, if_neg h2]

/-- Helper for C7: the loop breaks with no result once i+1 reaches the
active stop count. -/
lemma rampLoop_break (u : RampUniforms) (t : ℚ) (j : ℕ) (rest : List ℕ)
    (h1 : u.uColorRampStopCount ≤ j + 1) :
    rampLoop u t (j :: rest) = none := by
  simp only [rampLoop]
  rw [if_pos h1]

/-- Helper for C7: the loop returns the interpolated pair at a non-breaking
index whose bracket test holds. -/
lemma rampLoop_found (u : RampUniforms) (t : ℚ) (j : ℕ) (rest : List ℕ)
    (h1 : ¬ u.uColorRampStopCount ≤ j + 1)
    (h2 : u.uColorRampPositions j < t ∧ t ≤ u.uColorRampPositions (j + 1)) :
    rampLoop u t (j :: rest)
      = some (mix3q (u.uColorRamp j) (u.uColorRamp (j + 1))
          ((t - u.uColorRampPositions j) /
            (u.uColorRampPositions (j + 1) - u.uColorRampPositions j))) := by
  simp only [rampLoop]
  rw [if_neg h1, if_pos h2]

/-- C7: the color ramp lookup is piecewise-linear between consecutive stops
and clamps outside the active range: for stops {(0,black),(0.5,white)} and
t = 0.25 it returns 50% gray; any t at or below the first stop's position
returns the first stop's color; any t above the last active stop's position
(positions ascending, 2-5 active stops) returns the last active stop's
color; and whenever stops i, i+1 bracket t the result is the linear
interpolation between their colors. -/
theorem color_ramp_lookup (u : RampUniforms) (t : ℚ)
    (hsc2 : 2 ≤ u.uColorRampStopCount) (hsc5 : u.uColorRampStopCount ≤ 5)
    (hmono : ∀ a b : ℕ, a ≤ b → b < u.uColorRampStopCount →
      u.uColorRampPositions a ≤ u.uColorRampPositions b) :
    getColorFromRamp ⟨(fun i => if i = 0 then (0, 0, 0) else (1, 1, 1)),
        (fun i => if i = 0 then 0 else if i = 1 then 1/2 else 1), 2⟩ (1/4)
      = (1/2, 1/2, 1/2) ∧
    (t ≤ u.uColorRampPositions 0 → getColorFromRamp u t = u.uColorRamp 0) ∧
    (u.uColorRampPositions (u.uColorRampStopCount - 1) < t →
      getColorFromRamp u t = u.uColorRamp (u.uColorRampStopCount - 1)) ∧
    (∀ i : ℕ, i + 1 < u.uColorRampStopCount →
      u.uColorRampPositions i < t → t ≤ u.uColorRampPositions (i + 1) →
      getColorFromRamp u t
        = mix3q (u.uColorRamp i) (u.uColorRamp (i + 1))
            ((t - u.uColorRampPositions i) /
              (u.uColorRampPositions (i + 1) - u.uColorRampPositions i))) := by
  refine ⟨?_, ?_, ?_, ?_⟩
  · norm_num [getColorFromRamp, rampLoop, mix3q, glslMix]
  · intro h
    rw [getColorFromRamp, if_pos h]
  · intro h
    have hnot0 : ¬ t ≤ u.uColorRampPositions 0 := by
      have := hmono 0 (u.uColorRampStopCount - 1) (Nat.zero_le _) (by omega)
      exact not_le.mpr (lt_of_le_of_lt this h)
    have hskip : ∀ j : ℕ, j + 1 < u.uColorRampStopCount →
        ¬ (u.uColorRampPositions j < t ∧ t ≤ u.uColorRampPositions (j + 1)) := by
      intro j hj hc
      have := hmono (j + 1) (u.uColorRampStopCount - 1) (by omega) (by omega)
      exact absurd hc.2 (not_le.mpr (lt_of_le_of_lt this h))
    have hnone : rampLoop u t [0, 1, 2, 3] = none := by
      interval_cases hsc : u.uColorRampStopCount
      · rw [rampLoop_skip u t 0 _ (by omega) (hskip 0 (by omega)),
          rampLoop_break u t 1 _ (by omega)]
      · rw [rampLoop_skip u t 0 _ (by omega) (hskip 0 (by omega)),
          rampLoop_skip u t 1 _ (by omega) (hskip 1 (by omega)),
          rampLoop_break u t 2 _ (by omega)]
      · rw [rampLoop_skip u t 0 _ (by omega) (hskip 0 (by omega)),
          rampLoop_skip u t 1 _ (by omega) (hskip 1 (by omega)),
          rampLoop_skip u t 2 _ (by omega) (hskip 2 (by omega)),
          rampLoop_break u t 3 _ (by omega)]
      · rw [rampLoop_skip u t 0 _ (by omega) (hskip 0 (by omega)),
          rampLoop_skip u t 1 _ (by omega) (hskip 1 (by omega)),
          rampLoop_skip u t 2 _ (by omega) (hskip 2 (by omega)),
          rampLoop_skip u t 3 _ (by omega) (hskip 3 (by omega))]
        rfl
    rw [getColorFromRamp, if_neg hnot0, hnone]
    rfl
  · intro i hi hlo hhi
    have hnot0 : ¬ t ≤ u.uColorRampPositions 0 := by
      have := hmono 0 i (Nat.zero_le _) (by omega)
      exact not_le.mpr (lt_of_le_of_lt this hlo)
    have hskip : ∀ j : ℕ, j < i →
        ¬ (u.uColorRampPositions j < t ∧ t ≤ u.uColorRampPositions (j + 1)) := by
      intro j hj hc
      have := hmono (j + 1) i (by omega) (by omega)
      exact absurd hc.2 (not_le.mpr (lt_of_le_of_lt this hlo))
    have hi4 : i < 4 := by omega
    rw [getColorFromRamp, if_neg hnot0]
    interval_cases i
    · rw [rampLoop_found u t 0 _ (by omega) ⟨hlo, hhi⟩]
      rfl
    · rw [rampLoop_skip u t 0 _ (by omega) (hskip 0 (by omega)),
        rampLoop_found u t 1 _ (by omega) ⟨hlo, hhi⟩]
      rfl
    · rw [rampLoop_skip u t 0 _ (by omega) (hskip 0 (by omega)),
        rampLoop_skip u t 1 _ (by omega) (hskip 1 (by omega)),
        rampLoop_found u t 2 _ (by omega) ⟨hlo, hhi⟩]
      rfl
    · rw [rampLoop_skip u t 0 _ (by omega) (hskip 0 (by omega)),
        rampLoop_skip u t 1 _ (by omega) (hskip 1 (by omega)),
        rampLoop_skip u t 2 _ (by omega) (hskip 2 (by omega)),
        rampLoop_found u t 3 _ (by omega) ⟨hlo, hhi⟩]
      rfl

/-- Witness for C7: the two-stop black/white ramp, queried above the last
active stop at t = 3/4. -/
theorem color_ramp_lookup_witness :
    2 ≤ (RampUniforms.mk (fun i => if i = 0 then (0, 0, 0) else (1, 1, 1))
      (fun i => if i = 0 then 0 else if i = 1 then 1/2 else 1) 2).uColorRampStopCount ∧
    (RampUniforms.mk (fun i => if i = 0 then (0, 0, 0) else (1, 1, 1))
      (fun i => if i = 0 then 0 else if i = 1 then 1/2 else 1) 2).uColorRampStopCount ≤ 5 ∧
    (getColorFromRamp (RampUniforms.mk (fun i => if i = 0 then (0, 0, 0) else (1, 1, 1))
        (fun i => if i = 0 then 0 else if i = 1 then 1/2 else 1) 2) (3/4)
      = (RampUniforms.mk (fun i => if i = 0 then (0, 0, 0) else (1, 1, 1))
          (fun i => if i = 0 then 0 else if i = 1 then 1/2 else 1) 2).uColorRamp
          ((RampUniforms.mk (fun i => if i = 0 then (0, 0, 0) else (1, 1, 1))
            (fun i => if i = 0 then 0 else if i = 1 then 1/2 else 1) 2).uColorRampStopCount - 1)) := by
  refine ⟨by norm_num, by norm_num, ?_⟩
  have hmono : ∀ a b : ℕ, a ≤ b →
      b < (RampUniforms.mk (fun i => if i = 0 then (0, 0, 0) else (1, 1, 1))
        (fun i => if i = 0 then 0 else if i = 1 then 1/2 else 1) 2).uColorRampStopCount →
      (RampUniforms.mk (fun i => if i = 0 then (0, 0, 0) else (1, 1, 1))
        (fun i => if i = 0 then 0 else if i = 1 then 1/2 else 1) 2).uColorRampPositions a
      ≤ (RampUniforms.mk (fun i => if i = 0 then (0, 0, 0) else (1, 1, 1))
        (fun i => if i = 0 then 0 else if i = 1 then 1/2 else 1) 2).uColorRampPositions b := by
    intro a b hab hb
    interval_cases b <;> interval_cases a <;> norm_num
  exact (color_ramp_lookup _ (3/4) (by norm_num) (by norm_num) hmono).2.2.1 (by norm_num)

/-- Helper for C8: mixing with factor 1 yields the second operand. -/
lemma mix3r_one (a b : V3) : mix3r a b 1 = b := by
  simp only [mix3r]
  refine Prod.ext ?_ (Prod.ext ?_ ?_) <;> dsimp only <;> ring

/-- C8: in the underwater branch, when the refraction discriminant
k = 1 - eta²(1 - cosθ²) with eta = 1/IOR is negative (total internal
reflection) the output color is entirely the noised reflected/ambient color
(mix weight 1); otherwise it mixes the environment-refraction color with the
noised deep/shallow reflected color by the Schlick Fresnel reflectance; in
both cases the output alpha is exactly 1. -/
theorem underwater_branch_shading (fbm : ℝ × ℝ → ℕ → ℝ → ℝ → ℝ) (sky : V3 → V3)
    (u : UnderwaterUniforms) (wp : ℝ × ℝ) (I N : V3) :
    (underwaterK u I N < 0 →
      underwaterBranch fbm sky u wp I N = (underwaterReflectedColor fbm u wp I N, 1)) ∧
    (0 ≤ underwaterK u I N →
      underwaterBranch fbm sky u wp I N
        = (mix3r (underwaterRefractedColor sky u I N)
            (underwaterReflectedColor fbm u wp I N) (underwaterFresnel u I N), 1)) := by
  constructor
  · intro hk
    simp only [underwaterBranch, if_pos hk, mix3r_one]
  · intro hk
    simp only [underwaterBranch, if_neg (not_lt.mpr hk)]

/-- Witness for C8: IOR = 1/2 (eta = 2), grazing geometry dot(I,N) = 0, so
k = -3 < 0 and the output falls back fully to the reflected color. -/
theorem underwater_branch_shading_witness :
    underwaterK ⟨1/2, (0, 0, 0), (1, 1, 1), 0⟩ (1, 0, 0) (0, 1, 0) < 0 ∧
    underwaterBranch (fun _ _ _ _ => 0) (fun _ => (0, 0, 0))
        ⟨1/2, (0, 0, 0), (1, 1, 1), 0⟩ (0, 0) (1, 0, 0) (0, 1, 0)
      = (underwaterReflectedColor (fun _ _ _ _ => 0)
          ⟨1/2, (0, 0, 0), (1, 1, 1), 0⟩ (0, 0) (1, 0, 0) (0, 1, 0), 1) :=
  ⟨by norm_num [underwaterK, dot3],
    (underwater_branch_shading (fun _ _ _ _ => 0) (fun _ => (0, 0, 0))
      ⟨1/2, (0, 0, 0), (1, 1, 1), 0⟩ (0, 0) (1, 0, 0) (0, 1, 0)).1
      (by norm_num [underwaterK, dot3])⟩

/-- C4: for every input state and identical uniforms, one step of the
viscosity-enabled ripple solver with the viscosity coefficient set to 0
produces exactly the same (height, velocity) output as one step of the
legacy non-viscous ripple solver, whose velocity update
(average of 4 neighbours - height) * 2.0 equals Laplacian * 0.5. -/
theorem viscosity_zero_matches_legacy {n m : ℕ} (u : RippleUniformsLegacy)
    (g : RippleGrid n m) (i : Fin n) (j : Fin m) :
    rippleStepViscous (u.withViscosity 0) g i j = rippleStepLegacy u g i j := by
  simp only [rippleStepViscous, rippleStepLegacy, RippleUniformsLegacy.withViscosity]
  refine Prod.ext ?_ ?_ <;> dsimp only <;> ring

/-- C5: the multiply blend operator equals remapping both operands from
[-1,1] to [0,1], multiplying, and remapping back to [-1,1]; for operands in
[-1,1] the result stays in [-1,1]. -/
theorem multiply_blend_range_stable (h1 h2 m : ℚ) (hl1 : -1 ≤ h1) (hu1 : h1 ≤ 1)
    (hl2 : -1 ≤ h2) (hu2 : h2 ≤ 1) :
    blend_heights h1 h2 1 m = blendMultiplySpec h1 h2 ∧
    -1 ≤ blend_heights h1 h2 1 m ∧ blend_heights h1 h2 1 m ≤ 1 := by
  have heq : blend_heights h1 h2 1 m = blendMultiplySpec h1 h2 := by
    simp only [blend_heights, blendMultiplySpec]
    norm_num
    ring
  refine ⟨heq, ?_, ?_⟩ <;> rw [heq] <;> simp only [blendMultiplySpec]
  · nlinarith [mul_nonneg (by linarith : (0:ℚ) ≤ 1 + h1) (by linarith : (0:ℚ) ≤ 1 + h2)]
  · nlinarith [mul_nonneg (by linarith : (0:ℚ) ≤ 1 - h1) (by linarith : (0:ℚ) ≤ 1 - h2),
      mul_nonneg (by linarith : (0:ℚ) ≤ 1 + h1) (by linarith : (0:ℚ) ≤ 1 - h2)]

/-- Witness for C5 at h1 = 1/2, h2 = -1/3. -/
theorem multiply_blend_range_stable_witness :
    (-1 ≤ (1/2 : ℚ)) ∧ ((1/2 : ℚ) ≤ 1) ∧ (-1 ≤ (-1/3 : ℚ)) ∧ ((-1/3 : ℚ) ≤ 1) ∧
    (blend_heights (1/2) (-1/3) 1 0 = blendMultiplySpec (1/2) (-1/3) ∧
      -1 ≤ blend_heights (1/2) (-1/3) 1 0 ∧ blend_heights (1/2) (-1/3) 1 0 ≤ 1) :=
  ⟨by norm_num, by norm_num, by norm_num, by norm_num,
    multiply_blend_range_stable (1/2) (-1/3) 0 (by norm_num) (by norm_num)
      (by norm_num) (by norm_num)⟩

/-- C6: with layer B disabled the compositor's output is exactly layer A's
height, regardless of layer C's toggle, and layer A's height is its raw
noise sample scaled by amplitude * 10. -/
theorem layerB_disabled_short_circuit (nf : NoiseFns) (u : WaveUniforms) (p : ℚ × ℚ)
    (hB : u.uUseNoiseLayerB = false) :
    getBlendedWaveHeight nf u p
      = getProceduralNoiseHeight nf u.uTime u.uNoiseType
          (p.1 * u.uWaveScale * (1/50), p.2 * u.uWaveScale * (1/50))
          u.uWaveSpeed (u.uWaveHeight * 10) ∧
    getBlendedWaveHeight nf u p = layerANoiseSample nf u p * (u.uWaveHeight * 10) := by
  have h1 : getBlendedWaveHeight nf u p
      = getProceduralNoiseHeight nf u.uTime u.uNoiseType
          (p.1 * u.uWaveScale * (1/50), p.2 * u.uWaveScale * (1/50))
          u.uWaveSpeed (u.uWaveHeight * 10) := by
    simp [getBlendedWaveHeight, hB]
  refine ⟨h1, h1.trans ?_⟩
  simp only [getProceduralNoiseHeight, layerANoiseSample]
  split_ifs <;> ring

/-- Witness for C6: constant noise functions, layer B off, layer C on. -/
theorem layerB_disabled_short_circuit_witness :
    (WaveUniforms.mk 0 1 1 1 0 false 0 0 1 1 1 0 true 0 0 1 1 1 0).uUseNoiseLayerB = false ∧
    (getBlendedWaveHeight ⟨fun _ _ _ _ => 1, fun _ _ _ _ => 0, fun _ _ => 0⟩
        (WaveUniforms.mk 0 1 1 1 0 false 0 0 1 1 1 0 true 0 0 1 1 1 0) (0, 0)
      = getProceduralNoiseHeight ⟨fun _ _ _ _ => 1, fun _ _ _ _ => 0, fun _ _ => 0⟩ 0 0
          (0 * 1 * (1/50), 0 * 1 * (1/50)) 1 (1 * 10) ∧
    getBlendedWaveHeight ⟨fun _ _ _ _ => 1, fun _ _ _ _ => 0, fun _ _ => 0⟩
        (WaveUniforms.mk 0 1 1 1 0 false 0 0 1 1 1 0 true 0 0 1 1 1 0) (0, 0)
      = layerANoiseSample ⟨fun _ _ _ _ => 1, fun _ _ _ _ => 0, fun _ _ => 0⟩
          (WaveUniforms.mk 0 1 1 1 0 false 0 0 1 1 1 0 true 0 0 1 1 1 0) (0, 0) * (1 * 10)) :=
  ⟨rfl, layerB_disabled_short_circuit _ _ _ rfl⟩

end WaterSim
